import Mathlib

/-!
Verification development for the authentication core of
`adrianmcmains/integrated-site` (Go).

The embedding models, faithfully to the Go source:
  * the JSON claim values carried in a JWT payload (`JVal`, `Payload`);
  * the `dgrijalva/jwt-go` signing/parsing pipeline as used by
    `services/auth_service.go` (`jwtParse`, with the keyfunc of
    `ValidateToken` that accepts only HMAC signing methods, and the
    `MapClaims.Valid` checks on `exp`/`iat`/`nbf`, which treat a zero or
    absent timestamp as "no constraint" and count a token valid while
    `now <= exp`);
  * `google/uuid` parsing restricted to the canonical 36-character
    hyphenated form — the form `UUID.String()` emits and the only form the
    service ever produces (`uuidParse`, `uuidString`);
  * bcrypt and the user repository as explicit functional parameters (they
    are external collaborators in the spec);
  * the `AuthService` operations `Login`, `ValidateToken`, `RefreshToken`,
    `generateToken`, `generateRefreshToken`;
  * the gin middleware `AuthMiddleware` and `RoleMiddleware` from
    `middleware` (header parsing via the semantics of
    `strings.Split(h, " ")`, context values, abort/next outcomes).

The HMAC signature is idealised as a collision-free MAC: a signature value
records the secret, algorithm and payload it was computed over, so two
signatures agree exactly when all three agree.  Go runtime panics (the
unchecked type assertions in `ValidateToken` and `RoleMiddleware`) are a
distinguished `crash` outcome.
-/

/-- JSON values that can appear in a `jwt.MapClaims` payload entry. -/
inductive JVal where
  | str (s : String)
  | num (n : Int)
  | bool (b : Bool)
  | null
deriving DecidableEq, Repr

/-- A decoded JWT payload: `jwt.MapClaims`, modelled as an association list
with string keys (the Go map has unique keys; only lookup is used). -/
def Payload := List (String × JVal)
deriving DecidableEq, Repr

/-- Signing algorithms a token header can declare. -/
inductive Alg where
  | HS256
  | HS384
  | HS512
  | RS256
  | ES256
  | algNone
deriving DecidableEq, Repr

/-- The keyfunc check of `ValidateToken`:
`token.Method.(*jwt.SigningMethodHMAC)` succeeds exactly for the HMAC
family. -/
def isHMAC : Alg → Bool
  | Alg.HS256 => true
  | Alg.HS384 => true
  | Alg.HS512 => true
  | _ => false

/-- An idealised MAC value: `Sig.mac secret alg payload` is the signature
produced by signing `payload` under `alg` with `secret`; `Sig.forged` is
any other byte string an attacker may place in the signature slot.  Two
`mac` values are equal iff secret, algorithm and payload all agree
(collision-freeness of the idealised HMAC). -/
inductive Sig where
  | mac (secret : String) (alg : Alg) (payload : List (String × JVal))
  | forged (raw : String)
deriving DecidableEq, Repr

/-- A compact signed token `header.payload.signature`: the header declares
the algorithm, the payload is the claim map, and the signature is over
header+payload. -/
structure Token where
  alg : Alg
  payload : Payload
  sig : Sig
deriving DecidableEq, Repr

/-- The `exp` check of `jwt-go`'s `MapClaims.Valid` (required = false):
a missing or non-numeric `exp` imposes no constraint, `exp == 0` imposes
no constraint, otherwise the token is unexpired while `now <= exp`. -/
def verifyExpClaim (p : Payload) (now : Int) : Bool :=
  match p.lookup "exp" with
  | some (JVal.num e) => decide (e = 0 ∨ now ≤ e)
  | _ => true

/-- The `iat` check of `MapClaims.Valid` (required = false). -/
def verifyIatClaim (p : Payload) (now : Int) : Bool :=
  match p.lookup "iat" with
  | some (JVal.num i) => decide (i = 0 ∨ i ≤ now)
  | _ => true

/-- The `nbf` check of `MapClaims.Valid` (required = false). -/
def verifyNbfClaim (p : Payload) (now : Int) : Bool :=
  match p.lookup "nbf" with
  | some (JVal.num n) => decide (n = 0 ∨ n ≤ now)
  | _ => true

/-- `jwt.MapClaims.Valid` at time `now`. -/
def claimsValid (p : Payload) (now : Int) : Bool :=
  verifyExpClaim p now && verifyIatClaim p now && verifyNbfClaim p now

/-- `jwt.Parse` with the keyfunc used by `ValidateToken`: reject a
non-HMAC signing method (the keyfunc returns `ErrInvalidToken`), validate
the claims at `now`, and verify the signature under `secret` with the
header's declared method.  Any failure yields `none` (the Go call returns
a non-nil error and `ValidateToken` propagates it). -/
def jwtParse (t : Token) (secret : String) (now : Int) : Option Payload :=
  if isHMAC t.alg = true ∧ claimsValid t.payload now = true
      ∧ t.sig = Sig.mac secret t.alg t.payload
  then some t.payload else none

/-- A `google/uuid` value, identified by its canonical lowercase
36-character string form. -/
structure UUID where
  str : String
deriving DecidableEq, Repr

def isHexDigitChar (c : Char) : Bool :=
  (('0' ≤ c) && (c ≤ '9')) || (('a' ≤ c) && (c ≤ 'f')) || (('A' ≤ c) && (c ≤ 'F'))

/-- Shape of the canonical hyphenated UUID form: 36 characters, hyphens at
positions 8, 13, 18 and 23, hex digits elsewhere. -/
def uuidShape (cs : List Char) : Bool :=
  (cs.length == 36) &&
    (List.range 36).all (fun i =>
      if i == 8 || i == 13 || i == 18 || i == 23 then cs.getD i ' ' == '-'
      else isHexDigitChar (cs.getD i ' '))

/-- `uuid.Parse`, restricted to the canonical 36-character hyphenated form
(the only form `UUID.String()` produces and the only one this service ever
builds); hex digits are normalised to lowercase as `google/uuid` does when
re-encoding.  Any other string fails. -/
def uuidParse (s : String) : Option UUID :=
  if uuidShape s.data then some ⟨String.mk (s.data.map Char.toLower)⟩ else none

/-- `UUID.String()`. -/
def uuidString (u : UUID) : String := u.str

/-- `models.JWTClaims`: the projection of a validated token that
`ValidateToken` returns. -/
structure JWTClaims where
  userID : UUID
  email : String
  role : String
deriving DecidableEq, Repr

/-- Error values of the auth service and its collaborators. -/
inductive GoError where
  | invalidCredentials
  | userAlreadyExists
  | invalidToken
  | jwtError
  | storeError (code : Nat)
deriving DecidableEq, Repr

/-- Result of a Go call returning `(value, error)`; `crash` models a
runtime panic (e.g. a failed unchecked type assertion). -/
inductive GoResult (α : Type) where
  | ok (a : α)
  | error (e : GoError)
  | crash
deriving DecidableEq, Repr

/-- `AuthService.ValidateToken`: parse/verify via `jwt.Parse`, then read
`user_id`, `email` and `role` out of the claim map with unchecked type
assertions (`claims["user_id"].(string)` etc.), parsing the user id as a
UUID.  A failed assertion (missing key or non-string value) is a runtime
panic, modelled as `crash`; a string `user_id` that is not a valid UUID
returns `ErrInvalidToken`. -/
def validateToken (t : Token) (secret : String) (now : Int) : GoResult JWTClaims :=
  match jwtParse t secret now with
  | none => GoResult.error GoError.jwtError
  | some claims =>
    match claims.lookup "user_id" with
    | some (JVal.str uid) =>
      match uuidParse uid with
      | none => GoResult.error GoError.invalidToken
      | some u =>
        match claims.lookup "email" with
        | some (JVal.str em) =>
          match claims.lookup "role" with
          | some (JVal.str rl) => GoResult.ok { userID := u, email := em, role := rl }
          | _ => GoResult.crash
        | _ => GoResult.crash
    | _ => GoResult.crash

/-- `models.User`. -/
structure User where
  id : UUID
  email : String
  passwordHash : String
  fullName : String
  role : String
  avatarURL : String
  createdAt : Int
  updatedAt : Int
deriving DecidableEq, Repr

/-- The auth configuration consumed via `viper`: the signing secret
`auth.jwt_secret` and the two token lifetimes (`auth.token_expiry`,
`auth.refresh_token_expiry`) already resolved to seconds — the Go code
parses the configured duration string and falls back to 24h / 168h when
parsing fails. -/
structure Config where
  jwtSecret : String
  tokenExpiry : Int
  refreshTokenExpiry : Int
deriving DecidableEq, Repr

/-- Claim map built by `AuthService.generateToken` for an access token:
note there is no `is_refresh` entry. -/
def accessClaims (u : User) (now expiresAt : Int) : Payload :=
  [("user_id", JVal.str (uuidString u.id)),
   ("email", JVal.str u.email),
   ("role", JVal.str u.role),
   ("exp", JVal.num expiresAt),
   ("issued_at", JVal.num now)]

/-- Claim map built by `AuthService.generateRefreshToken`: the access
claims plus `is_refresh: true`. -/
def refreshClaims (u : User) (now expiresAt : Int) : Payload :=
  [("user_id", JVal.str (uuidString u.id)),
   ("email", JVal.str u.email),
   ("role", JVal.str u.role),
   ("exp", JVal.num expiresAt),
   ("issued_at", JVal.num now),
   ("is_refresh", JVal.bool true)]

/-- `jwt.NewWithClaims(jwt.SigningMethodHS256, claims).SignedString(secret)`. -/
def signPayload (pl : Payload) (secret : String) : Token :=
  { alg := Alg.HS256, payload := pl, sig := Sig.mac secret Alg.HS256 pl }

/-- `AuthService.generateToken` at time `now` (returns the signed token;
its companion expiry return value is `now + cfg.tokenExpiry`). -/
def generateToken (u : User) (cfg : Config) (now : Int) : Token :=
  signPayload (accessClaims u now (now + cfg.tokenExpiry)) cfg.jwtSecret

/-- `AuthService.generateRefreshToken` at time `now`. -/
def generateRefreshToken (u : User) (cfg : Config) (now : Int) : Token :=
  signPayload (refreshClaims u now (now + cfg.refreshTokenExpiry)) cfg.jwtSecret

/-- `models.TokenResponse` (token strings kept in their structured signed
form, which the compact encoding determines injectively). -/
structure TokenResponse where
  token : Token
  refreshToken : Token
  expiresAt : Int
  user : User
deriving DecidableEq, Repr

/-- The token response `Login` and `RefreshToken` both assemble on
success. -/
def mkTokenResponse (u : User) (cfg : Config) (now : Int) : TokenResponse :=
  { token := generateToken u cfg now
  , refreshToken := generateRefreshToken u cfg now
  , expiresAt := now + cfg.tokenExpiry
  , user := u }

/-- `AuthService.Login`.  `findByEmail` is the user repository
(`GetByEmail`); `check h pw` is `bcrypt.CompareHashAndPassword(h, pw)`
returning true on match (a bcrypt error — mismatch or malformed hash —
yields `ErrInvalidCredentials` either way, so it is a boolean here). -/
def login (findByEmail : String → GoResult (Option User))
    (check : String → String → Bool) (cfg : Config) (now : Int)
    (email password : String) : GoResult TokenResponse :=
  match findByEmail email with
  | GoResult.crash => GoResult.crash
  | GoResult.error e => GoResult.error e
  | GoResult.ok none => GoResult.error GoError.invalidCredentials
  | GoResult.ok (some user) =>
    if check user.passwordHash password
    then GoResult.ok (mkTokenResponse user cfg now)
    else GoResult.error GoError.invalidCredentials

/-- `AuthService.RefreshToken`: validate the presented token (note: no
check of the `is_refresh` flag), re-resolve the user by id via the
repository (`GetByID`), then issue a fresh pair. -/
def refreshTokenOp (findByID : UUID → GoResult (Option User))
    (cfg : Config) (now : Int) (t : Token) : GoResult TokenResponse :=
  match validateToken t cfg.jwtSecret now with
  | GoResult.crash => GoResult.crash
  | GoResult.error e => GoResult.error e
  | GoResult.ok claims =>
    match findByID claims.userID with
    | GoResult.crash => GoResult.crash
    | GoResult.error e => GoResult.error e
    | GoResult.ok none => GoResult.error GoError.invalidToken
    | GoResult.ok (some user) => GoResult.ok (mkTokenResponse user cfg now)

/-- The claim set of the spec's data model (§3): user id (string form),
email, role, expiry, issued-at, and the refresh marker. -/
structure ClaimSet where
  userId : String
  email : String
  role : String
  exp : Int
  issuedAt : Int
  isRefresh : Bool
deriving DecidableEq, Repr

/-- Wire encoding of a claim set, exactly as the two generators build it:
base fields always, `is_refresh: true` exactly when the set is
refresh-marked. -/
def encodeClaimSet (c : ClaimSet) : Payload :=
  [("user_id", JVal.str c.userId),
   ("email", JVal.str c.email),
   ("role", JVal.str c.role),
   ("exp", JVal.num c.exp),
   ("issued_at", JVal.num c.issuedAt)]
  ++ (if c.isRefresh then [("is_refresh", JVal.bool true)] else [])

/-- The Token Codec's `sign(C, S)`. -/
def signClaimSet (c : ClaimSet) (secret : String) : Token :=
  signPayload (encodeClaimSet c) secret

/-- Go `strings.Split` on the single-character separator `" "`, on a char
list: splitting the empty string yields `[""]`, adjacent separators yield
empty fields. -/
def splitCharsOnSpace : List Char → List (List Char)
  | [] => [[]]
  | c :: cs =>
    if c = ' ' then [] :: splitCharsOnSpace cs
    else
      match splitCharsOnSpace cs with
      | [] => [[c]]
      | g :: gs => (c :: g) :: gs

/-- `strings.Split(s, " ")`. -/
def goSplitSpace (s : String) : List String :=
  (splitCharsOnSpace s.data).map String.mk

/-- Values the Access Gate stores in the gin context: `user_id` is stored
as a `uuid.UUID`, `email` and `role` as strings. -/
inductive CtxVal where
  | str (s : String)
  | uid (u : UUID)
deriving DecidableEq, Repr

/-- Outcome of `AuthMiddleware` on a request: a JSON error response with a
status (the gate aborts), or passing control downstream with the identity
it attached to the context, or a runtime panic propagated from
`ValidateToken`. -/
inductive MWOutcome where
  | respond (status : Nat) (errMsg : String)
  | proceed (userID : UUID) (email : String) (role : String)
  | crash
deriving DecidableEq, Repr

/-- `middleware.AuthMiddleware`, with the Identity Service's validator
abstracted as a function on the extracted token string: require a
non-empty `Authorization` header of the exact form `Bearer <token>`
(exactly two space-separated parts, first literally "Bearer"), then
validate and attach `user_id`/`email`/`role` to the context. -/
def authMiddleware (validate : String → GoResult JWTClaims)
    (authHeader : String) : MWOutcome :=
  if authHeader = "" then
    MWOutcome.respond 401 "Authorization header is required"
  else
    let parts := goSplitSpace authHeader
    if parts.length ≠ 2 ∨ parts.getD 0 "" ≠ "Bearer" then
      MWOutcome.respond 401 "Authorization header format must be Bearer \x7btoken\x7d"
    else
      match validate (parts.getD 1 "") with
      | GoResult.ok claims => MWOutcome.proceed claims.userID claims.email claims.role
      | GoResult.error _ => MWOutcome.respond 401 "Invalid or expired token"
      | GoResult.crash => MWOutcome.crash

/-- Outcome of `RoleMiddleware`: an error response (abort), or `c.Next()`,
or a panic of the unchecked `role.(string)` assertion. -/
inductive RoleOutcome where
  | respond (status : Nat) (errMsg : String)
  | next
  | crash
deriving DecidableEq, Repr

/-- `middleware.RoleMiddleware(roles...)`: 401 when no `role` value is in
the context, a panic when the stored value is not a string, otherwise a
linear scan of the allow-list — `c.Next()` on a match, else 403
"Permission denied". -/
def roleMiddleware (roles : List String) (ctxRole : Option CtxVal) : RoleOutcome :=
  match ctxRole with
  | none => RoleOutcome.respond 401 "User not authenticated"
  | some (CtxVal.uid _) => RoleOutcome.crash
  | some (CtxVal.str userRole) =>
    if roles.contains userRole then RoleOutcome.next
    else RoleOutcome.respond 403 "Permission denied"

/-! Concrete fixtures used by several claims. -/

/-- A stored user record. -/
def u0 : User :=
  { id := ⟨"123e4567-e89b-12d3-a456-426614174000"⟩
  , email := "a@x.com", passwordHash := "h", fullName := "Ann"
  , role := "customer", avatarURL := "", createdAt := 0, updatedAt := 0 }

/-- A concrete configuration: 24h access tokens, 7d refresh tokens. -/
def cfg0 : Config :=
  { jwtSecret := "topsecret", tokenExpiry := 86400, refreshTokenExpiry := 604800 }

/-- A repository whose `GetByID` knows exactly `u0`. -/
def repo0 : UUID → GoResult (Option User) :=
  fun id => if id = u0.id then GoResult.ok (some u0) else GoResult.ok none

/-- C1: `ValidateToken` never checks the `is_refresh` flag, so a
validly-signed, unexpired refresh token — whose claim map carries
`is_refresh: true` — is accepted and its claim set returned where an
access token is expected, contradicting the claim's MUST-reject.  (The
spec itself flags the missing discrimination as a required fix the source
lacks, §9.) -/
theorem validateToken_accepts_refresh_marked_token :
    (generateRefreshToken u0 cfg0 1000).payload.lookup "is_refresh"
      = some (JVal.bool true)
    ∧ validateToken (generateRefreshToken u0 cfg0 1000) cfg0.jwtSecret 1001
      = GoResult.ok { userID := u0.id, email := "a@x.com", role := "customer" } := by
  decide

/-- C2: `RefreshToken` only calls `ValidateToken` and never checks the
`is_refresh` flag, so a validly-signed, unexpired access token — whose
claim map has no `is_refresh` entry — is accepted and a fresh token pair
issued, contradicting the claim's MUST-fail.  (Missing discrimination
flagged as a required fix by the spec, §9.) -/
theorem refreshTokenOp_accepts_access_token :
    (generateToken u0 cfg0 1000).payload.lookup "is_refresh" = none
    ∧ refreshTokenOp repo0 cfg0 1001 (generateToken u0 cfg0 1000)
      = GoResult.ok (mkTokenResponse u0 cfg0 1001) := by
  decide

/-- C3 (counterexample): the round-trip `verify(sign(C, S), S) = C` fails
as stated for a claim set that is already expired at verification time —
here `issuedAt = 0`, `exp = 1` (expiry strictly after issued-at, as the
data model requires) verified at `now = 2` — because verification also
checks expiry. -/
theorem sign_verify_roundtrip_fails_when_expired :
    jwtParse
      (signClaimSet ⟨"123e4567-e89b-12d3-a456-426614174000", "a@x.com", "admin", 1, 0, false⟩ "s")
      "s" 2 = none := by
  decide

theorem encodeClaimSet_lookup_exp (c : ClaimSet) :
    (encodeClaimSet c).lookup "exp" = some (JVal.num c.exp) := by
  cases hr : c.isRefresh <;> simp [encodeClaimSet, hr, List.lookup]

theorem encodeClaimSet_lookup_iat (c : ClaimSet) :
    (encodeClaimSet c).lookup "iat" = none := by
  cases hr : c.isRefresh <;> simp [encodeClaimSet, hr, List.lookup]

theorem encodeClaimSet_lookup_nbf (c : ClaimSet) :
    (encodeClaimSet c).lookup "nbf" = none := by
  cases hr : c.isRefresh <;> simp [encodeClaimSet, hr, List.lookup]

/-- C3 (amended): for every claim set C and secret S, if C is not yet
expired at the verification time then verifying `sign(C, S)` under the
same secret S recovers exactly C (its wire encoding, which determines C
injectively); and — unconditionally, for every C and S — verifying
`sign(C, S)` under any secret S' different from S fails. -/
theorem sign_verify_roundtrip_unexpired (c : ClaimSet) (s s' : String) (now : Int) :
    (now ≤ c.exp → jwtParse (signClaimSet c s) s now = some (encodeClaimSet c))
    ∧ (s' ≠ s → jwtParse (signClaimSet c s) s' now = none) := by
  constructor
  · intro h
    have hv : claimsValid (encodeClaimSet c) now = true := by
      simp [claimsValid, verifyExpClaim, verifyIatClaim, verifyNbfClaim,
        encodeClaimSet_lookup_exp, encodeClaimSet_lookup_iat, encodeClaimSet_lookup_nbf]
      omega
    simp [signClaimSet, signPayload, jwtParse, hv, isHMAC]
  · intro hne
    have hsig : Sig.mac s Alg.HS256 (encodeClaimSet c)
        ≠ Sig.mac s' Alg.HS256 (encodeClaimSet c) := by
      intro hh
      injection hh with h1 h2 h3
      exact hne h1.symm
    simp [signClaimSet, signPayload, jwtParse, hsig]

/-- C3 (witness): the round-trip and the wrong-secret rejection at a
concrete unexpired claim set. -/
theorem sign_verify_roundtrip_unexpired_witness :
    jwtParse
      (signClaimSet ⟨"123e4567-e89b-12d3-a456-426614174000", "a@x.com", "customer", 100, 1, true⟩ "s1")
      "s1" 50
      = some (encodeClaimSet ⟨"123e4567-e89b-12d3-a456-426614174000", "a@x.com", "customer", 100, 1, true⟩)
    ∧ jwtParse
        (signClaimSet ⟨"123e4567-e89b-12d3-a456-426614174000", "a@x.com", "customer", 100, 1, true⟩ "s1")
        "s2" 50 = none :=
  ⟨(sign_verify_roundtrip_unexpired
      ⟨"123e4567-e89b-12d3-a456-426614174000", "a@x.com", "customer", 100, 1, true⟩
      "s1" "s2" 50).1 (by decide),
   (sign_verify_roundtrip_unexpired
      ⟨"123e4567-e89b-12d3-a456-426614174000", "a@x.com", "customer", 100, 1, true⟩
      "s1" "s2" 50).2 (by decide)⟩

/-- C4: for every token whose header declares a signing algorithm outside
the HMAC family (asymmetric algorithms and "none" included), the keyfunc
of `ValidateToken` rejects it, regardless of payload and signature. -/
theorem validateToken_rejects_non_hmac_alg (t : Token) (secret : String) (now : Int)
    (h : isHMAC t.alg = false) :
    validateToken t secret now = GoResult.error GoError.jwtError := by
  simp [validateToken, jwtParse, h]

/-- C4 (witness): an alg="none" token with an arbitrary signature is
rejected. -/
theorem validateToken_rejects_non_hmac_alg_witness :
    isHMAC Alg.algNone = false
    ∧ validateToken
        { alg := Alg.algNone
        , payload := [("user_id", JVal.str "123e4567-e89b-12d3-a456-426614174000")]
        , sig := Sig.forged "sig" } "s" 0
      = GoResult.error GoError.jwtError :=
  ⟨by decide,
   validateToken_rejects_non_hmac_alg
     { alg := Alg.algNone
     , payload := [("user_id", JVal.str "123e4567-e89b-12d3-a456-426614174000")]
     , sig := Sig.forged "sig" } "s" 0 (by decide)⟩

/-- C5 (counterexample): at the exact expiry instant (`exp = 5`, `now = 5`)
a correctly signed token still validates — `jwt-go` counts a token valid
while `now <= exp` — so "exp at or before the current time always fails"
is false at the boundary. -/
theorem validateToken_accepts_token_at_exact_expiry :
    (encodeClaimSet ⟨"123e4567-e89b-12d3-a456-426614174000", "a@x.com", "admin", 5, 1, false⟩).lookup "exp"
      = some (JVal.num 5)
    ∧ validateToken
        (signClaimSet ⟨"123e4567-e89b-12d3-a456-426614174000", "a@x.com", "admin", 5, 1, false⟩ "s")
        "s" 5
      = GoResult.ok
          { userID := ⟨"123e4567-e89b-12d3-a456-426614174000"⟩
          , email := "a@x.com", role := "admin" } := by
  decide

/-- C5 (amended): for every token whose `exp` claim is a nonzero number
strictly before the current time, `ValidateToken` fails with an error
regardless of the rest of the token — in particular even when the
signature is valid.  (At `now = exp` the token is still accepted, and
`exp = 0` disables the expiry check entirely, per `jwt-go`'s
`verifyExp`.) -/
theorem validateToken_rejects_strictly_expired (t : Token) (secret : String) (now e : Int)
    (hlook : t.payload.lookup "exp" = some (JVal.num e)) (h0 : e ≠ 0) (hlt : e < now) :
    validateToken t secret now = GoResult.error GoError.jwtError := by
  have hexp : verifyExpClaim t.payload now = false := by
    simp [verifyExpClaim, hlook]
    omega
  have hcv : claimsValid t.payload now = false := by
    simp [claimsValid, hexp]
  simp [validateToken, jwtParse, hcv]

/-- C5 (witness): a correctly signed token with `exp = 5` fails validation
at `now = 6`. -/
theorem validateToken_rejects_strictly_expired_witness :
    validateToken
      (signPayload
        [("user_id", JVal.str "123e4567-e89b-12d3-a456-426614174000"), ("exp", JVal.num 5)] "s")
      "s" 6
      = GoResult.error GoError.jwtError :=
  validateToken_rejects_strictly_expired
    (signPayload
      [("user_id", JVal.str "123e4567-e89b-12d3-a456-426614174000"), ("exp", JVal.num 5)] "s")
    "s" 6 5 (by decide) (by decide) (by decide)

/-- C6: `Login` fails with the single undifferentiated
`ErrInvalidCredentials` both when the email matches no stored user and
when the email matches a user whose password verification fails — the
same error kind in both cases, never revealing which check failed. -/
theorem login_single_invalid_credentials_error
    (findByEmail : String → GoResult (Option User))
    (check : String → String → Bool) (cfg : Config) (now : Int) (email pw : String) :
    (findByEmail email = GoResult.ok none →
      login findByEmail check cfg now email pw = GoResult.error GoError.invalidCredentials)
    ∧ (∀ u, findByEmail email = GoResult.ok (some u) → check u.passwordHash pw = false →
      login findByEmail check cfg now email pw = GoResult.error GoError.invalidCredentials) := by
  constructor
  · intro h; simp [login, h]
  · intro u h hc; simp [login, h, hc]

/-- C6 (witness): both failure modes at concrete inputs yield the same
error value. -/
theorem login_single_invalid_credentials_error_witness :
    login (fun _ => GoResult.ok none) (fun _ _ => true) cfg0 0 "a@x.com" "pw"
      = GoResult.error GoError.invalidCredentials
    ∧ login (fun _ => GoResult.ok (some u0)) (fun _ _ => false) cfg0 0 "a@x.com" "pw"
      = GoResult.error GoError.invalidCredentials :=
  ⟨(login_single_invalid_credentials_error
      (fun _ => GoResult.ok none) (fun _ _ => true) cfg0 0 "a@x.com" "pw").1 rfl,
   (login_single_invalid_credentials_error
      (fun _ => GoResult.ok (some u0)) (fun _ _ => false) cfg0 0 "a@x.com" "pw").2 u0 rfl rfl⟩

/-- C7: `AuthMiddleware` responds 401 without consulting the validator
whenever the `Authorization` header is missing (empty) or not exactly two
space-separated parts with the first literally "Bearer" — the outcome is
identical for any two validators; on a well-formed header whose token
validates, the user id, email and role of the claims are attached to the
context and control passes downstream. -/
theorem authMiddleware_gate_behavior (v v' : String → GoResult JWTClaims)
    (h : String) (c : JWTClaims) :
    (h = "" ∨ (goSplitSpace h).length ≠ 2 ∨ (goSplitSpace h).getD 0 "" ≠ "Bearer" →
      (∃ msg, authMiddleware v h = MWOutcome.respond 401 msg)
      ∧ authMiddleware v h = authMiddleware v' h)
    ∧ ((goSplitSpace h).length = 2 → (goSplitSpace h).getD 0 "" = "Bearer" →
      v ((goSplitSpace h).getD 1 "") = GoResult.ok c →
      authMiddleware v h = MWOutcome.proceed c.userID c.email c.role) := by
  constructor
  · intro hm
    by_cases hE : h = ""
    · exact ⟨⟨"Authorization header is required", by simp [authMiddleware, hE]⟩,
        by simp [authMiddleware, hE]⟩
    · have hcond : (goSplitSpace h).length ≠ 2 ∨ (goSplitSpace h).getD 0 "" ≠ "Bearer" := by
        rcases hm with hm | hm | hm
        · exact absurd hm hE
        · exact Or.inl hm
        · exact Or.inr hm
      constructor
      · refine ⟨"Authorization header format must be Bearer \x7btoken\x7d", ?_⟩
        simp only [authMiddleware]
        rw [if_neg hE, if_pos hcond]
      · simp only [authMiddleware]
        rw [if_neg hE, if_pos hcond, if_neg hE, if_pos hcond]
  · intro h2 hb hv
    have hE : h ≠ "" := by
      intro hE
      rw [hE] at h2
      simp [goSplitSpace, splitCharsOnSpace] at h2
    have hcond : ¬((goSplitSpace h).length ≠ 2 ∨ (goSplitSpace h).getD 0 "" ≠ "Bearer") := by
      push_neg
      exact ⟨h2, hb⟩
    simp only [authMiddleware]
    rw [if_neg hE, if_neg hcond, hv]

/-- A concrete validator for the Access Gate witness: accepts exactly the
token string "tok". -/
def c7v : String → GoResult JWTClaims :=
  fun s =>
    if s = "tok"
    then GoResult.ok
      { userID := ⟨"123e4567-e89b-12d3-a456-426614174000"⟩
      , email := "a@x.com", role := "customer" }
    else GoResult.error GoError.invalidToken

/-- C7 (witness): header "Token abc" (wrong scheme) is rejected with 401
with the same outcome under a validator that would crash if consulted;
header "Bearer tok" proceeds with the validated identity attached. -/
theorem authMiddleware_gate_behavior_witness :
    ((∃ msg, authMiddleware c7v "Token abc" = MWOutcome.respond 401 msg)
      ∧ authMiddleware c7v "Token abc" = authMiddleware (fun _ => GoResult.crash) "Token abc")
    ∧ authMiddleware c7v "Bearer tok"
      = MWOutcome.proceed ⟨"123e4567-e89b-12d3-a456-426614174000"⟩ "a@x.com" "customer" :=
  ⟨(authMiddleware_gate_behavior c7v (fun _ => GoResult.crash) "Token abc"
      { userID := ⟨"123e4567-e89b-12d3-a456-426614174000"⟩
      , email := "a@x.com", role := "customer" }).1
      (Or.inr (Or.inr (by decide))),
   (authMiddleware_gate_behavior c7v (fun _ => GoResult.crash) "Bearer tok"
      { userID := ⟨"123e4567-e89b-12d3-a456-426614174000"⟩
      , email := "a@x.com", role := "customer" }).2
      (by decide) (by decide) (by decide)⟩

/-- C8: `RoleMiddleware` responds 401 when no role is attached to the
context, responds 403 "Permission denied" (short-circuiting, no
`c.Next()`) when the attached role is not in the allow-set, and passes
control downstream exactly when it is a member. -/
theorem roleMiddleware_gate_behavior (roles : List String) (r : String) :
    roleMiddleware roles none = RoleOutcome.respond 401 "User not authenticated"
    ∧ (r ∉ roles →
        roleMiddleware roles (some (CtxVal.str r)) = RoleOutcome.respond 403 "Permission denied")
    ∧ (r ∈ roles →
        roleMiddleware roles (some (CtxVal.str r)) = RoleOutcome.next) := by
  refine ⟨rfl, ?_, ?_⟩
  · intro hc; simp [roleMiddleware, hc]
  · intro hc; simp [roleMiddleware, hc]

/-- C8 (witness): a route gated to allow-set \x7b"admin"\x7d rejects a
"customer" identity with 403 and admits an "admin" identity. -/
theorem roleMiddleware_gate_behavior_witness :
    roleMiddleware ["admin"] none = RoleOutcome.respond 401 "User not authenticated"
    ∧ roleMiddleware ["admin"] (some (CtxVal.str "customer"))
      = RoleOutcome.respond 403 "Permission denied"
    ∧ roleMiddleware ["admin"] (some (CtxVal.str "admin")) = RoleOutcome.next :=
  ⟨(roleMiddleware_gate_behavior ["admin"] "customer").1,
   (roleMiddleware_gate_behavior ["admin"] "customer").2.1 (by decide),
   (roleMiddleware_gate_behavior ["admin"] "admin").2.2 (by decide)⟩

/-- C9: every successful login issues an access token whose claim map has
no `is_refresh` entry (the encoding of refresh = false) and a refresh
token whose claim map carries `is_refresh: true`, both bound to the
responding user's id, email and role. -/
theorem login_token_refresh_flags (findByEmail : String → GoResult (Option User))
    (check : String → String → Bool) (cfg : Config) (now : Int) (email pw : String)
    (resp : TokenResponse)
    (h : login findByEmail check cfg now email pw = GoResult.ok resp) :
    resp.token.payload.lookup "is_refresh" = none
    ∧ resp.refreshToken.payload.lookup "is_refresh" = some (JVal.bool true)
    ∧ resp.token.payload.lookup "user_id" = some (JVal.str (uuidString resp.user.id))
    ∧ resp.token.payload.lookup "email" = some (JVal.str resp.user.email)
    ∧ resp.token.payload.lookup "role" = some (JVal.str resp.user.role)
    ∧ resp.refreshToken.payload.lookup "user_id" = some (JVal.str (uuidString resp.user.id))
    ∧ resp.refreshToken.payload.lookup "email" = some (JVal.str resp.user.email)
    ∧ resp.refreshToken.payload.lookup "role" = some (JVal.str resp.user.role) := by
  unfold login at h
  cases hfe : findByEmail email with
  | crash => rw [hfe] at h; cases h
  | error e => rw [hfe] at h; cases h
  | ok uo =>
    rw [hfe] at h
    cases uo with
    | none => cases h
    | some user =>
      by_cases hc : check user.passwordHash pw
      · simp [hc] at h
        subst h
        exact ⟨rfl, rfl, rfl, rfl, rfl, rfl, rfl, rfl⟩
      · simp [hc] at h

/-- C9 (witness): the flags and bindings of a concrete successful login. -/
theorem login_token_refresh_flags_witness :
    (mkTokenResponse u0 cfg0 5).token.payload.lookup "is_refresh" = none
    ∧ (mkTokenResponse u0 cfg0 5).refreshToken.payload.lookup "is_refresh"
      = some (JVal.bool true)
    ∧ (mkTokenResponse u0 cfg0 5).token.payload.lookup "user_id"
      = some (JVal.str (uuidString (mkTokenResponse u0 cfg0 5).user.id))
    ∧ (mkTokenResponse u0 cfg0 5).token.payload.lookup "email"
      = some (JVal.str (mkTokenResponse u0 cfg0 5).user.email)
    ∧ (mkTokenResponse u0 cfg0 5).token.payload.lookup "role"
      = some (JVal.str (mkTokenResponse u0 cfg0 5).user.role)
    ∧ (mkTokenResponse u0 cfg0 5).refreshToken.payload.lookup "user_id"
      = some (JVal.str (uuidString (mkTokenResponse u0 cfg0 5).user.id))
    ∧ (mkTokenResponse u0 cfg0 5).refreshToken.payload.lookup "email"
      = some (JVal.str (mkTokenResponse u0 cfg0 5).user.email)
    ∧ (mkTokenResponse u0 cfg0 5).refreshToken.payload.lookup "role"
      = some (JVal.str (mkTokenResponse u0 cfg0 5).user.role) :=
  login_token_refresh_flags (fun _ => GoResult.ok (some u0)) (fun _ _ => true)
    cfg0 5 "a@x.com" "pw" (mkTokenResponse u0 cfg0 5) rfl

/-- C10 (counterexample): `ValidateToken` can return an error — not a
panic — on a validly-signed, unexpired token that lacks the `email` and
`role` fields: when `user_id` is a string that fails UUID parsing the
function returns `ErrInvalidToken` before the other assertions run, so it
is not the case that it is total only for payloads carrying all three
fields as strings. -/
theorem validateToken_total_without_all_string_fields :
    validateToken
      (signPayload [("user_id", JVal.str "nope"), ("exp", JVal.num 100)] "s") "s" 0
      = GoResult.error GoError.invalidToken
    ∧ (signPayload [("user_id", JVal.str "nope"), ("exp", JVal.num 100)] "s").payload.lookup "email"
      = none := by
  decide

/-- True when the claim map carries `k` with a string value — the shape
the unchecked assertions of `ValidateToken` require. -/
def hasStringField (p : Payload) (k : String) : Bool :=
  match p.lookup k with
  | some (JVal.str _) => true
  | _ => false

theorem hasStringField_true {p : Payload} {k : String} (h : hasStringField p k = true) :
    ∃ s, p.lookup k = some (JVal.str s) := by
  unfold hasStringField at h
  rcases hl : p.lookup k with _ | v
  · rw [hl] at h; cases h
  · rw [hl] at h
    cases v with
    | str s => exact ⟨s, rfl⟩
    | num n => cases h
    | bool b => cases h
    | null => cases h

theorem hasStringField_false {p : Payload} {k : String} (h : hasStringField p k = false) :
    ∀ s, p.lookup k ≠ some (JVal.str s) := by
  intro s hs
  unfold hasStringField at h
  rw [hs] at h
  cases h

/-- C10 (amended): a validly-signed, unexpired HMAC token whose payload
lacks `user_id` panics `ValidateToken` (first conjunct, a concrete such
token); any token whose payload carries `user_id`, `email` and `role` as
strings never panics; and on any token that parses, a missing/non-string
`user_id` — or, when `user_id` is a string that parses as a UUID, a
missing/non-string `email` or `role` — panics.  (When `user_id` is a
string that fails UUID parsing, the function returns an error before the
remaining assertions, so totality does not require the other two
fields.) -/
theorem validateToken_crash_characterization :
    validateToken (signPayload [("exp", JVal.num 100)] "s") "s" 0 = GoResult.crash
    ∧ (∀ (t : Token) (secret : String) (now : Int),
        hasStringField t.payload "user_id" = true →
        hasStringField t.payload "email" = true →
        hasStringField t.payload "role" = true →
        validateToken t secret now ≠ GoResult.crash)
    ∧ (∀ (t : Token) (secret : String) (now : Int) (p : Payload),
        jwtParse t secret now = some p →
        hasStringField p "user_id" = false →
        validateToken t secret now = GoResult.crash)
    ∧ (∀ (t : Token) (secret : String) (now : Int) (p : Payload) (s : String) (u : UUID),
        jwtParse t secret now = some p →
        p.lookup "user_id" = some (JVal.str s) →
        uuidParse s = some u →
        (hasStringField p "email" = false ∨ hasStringField p "role" = false) →
        validateToken t secret now = GoResult.crash) := by
  refine ⟨by decide, ?_, ?_, ?_⟩
  · intro t secret now h1 h2 h3
    unfold validateToken
    rcases hp : jwtParse t secret now with _ | p
    · simp
    · have hpp : p = t.payload := by
        unfold jwtParse at hp
        split at hp
        · exact (Option.some_inj.mp hp).symm
        · cases hp
      subst hpp
      obtain ⟨s1, hu⟩ := hasStringField_true h1
      obtain ⟨s2, he⟩ := hasStringField_true h2
      obtain ⟨s3, hr⟩ := hasStringField_true h3
      simp only [hu, he, hr]
      rcases uuidParse s1 with _ | u <;> simp
  · intro t secret now p hp h1
    unfold validateToken
    simp only [hp]
    rcases hl : p.lookup "user_id" with _ | v
    · rfl
    · cases v with
      | str s => exact absurd hl (hasStringField_false h1 s)
      | num n => rfl
      | bool b => rfl
      | null => rfl
  · intro t secret now p s u hp hu huu hor
    unfold validateToken
    simp only [hp, hu, huu]
    rcases hor with he | hr
    · rcases hl : p.lookup "email" with _ | v
      · rfl
      · cases v with
        | str s2 => exact absurd hl (hasStringField_false he s2)
        | num n => rfl
        | bool b => rfl
        | null => rfl
    · rcases hl : p.lookup "email" with _ | v
      · rfl
      · cases v with
        | str s2 =>
          simp only [hl]
          rcases hl2 : p.lookup "role" with _ | w
          · rfl
          · cases w with
            | str s3 => exact absurd hl2 (hasStringField_false hr s3)
            | num n => rfl
            | bool b => rfl
            | null => rfl
        | num n => rfl
        | bool b => rfl
        | null => rfl

/-- C10 (witness): a token carrying all three fields as strings does not
panic validation. -/
theorem validateToken_crash_characterization_witness :
    validateToken
      (signPayload
        [("user_id", JVal.str "123e4567-e89b-12d3-a456-426614174000"),
         ("email", JVal.str "a@x.com"), ("role", JVal.str "admin")] "s") "s" 0
      ≠ GoResult.crash :=
  validateToken_crash_characterization.2.1
    (signPayload
      [("user_id", JVal.str "123e4567-e89b-12d3-a456-426614174000"),
       ("email", JVal.str "a@x.com"), ("role", JVal.str "admin")] "s")
    "s" 0 (by decide) (by decide) (by decide)
